import Mathlib

/-!
# Verification of the docker_version_fetcher update engine

Shallow embedding, in Lean 4, of the version-comparison, tag-filtering,
latest-version resolution and notification-state logic of the
`docker_version_fetcher` repository (files `docker_hub_client.py`,
`state_manager.py`, `main.py`), together with theorems settling the
stated properties of that logic.

Modelling conventions:
* Python strings are Lean `String`s; character-level work is done on
  `String.data` (a `List Char`), with string ordering by code point as
  in Python.
* Machine-level I/O (HTTP transport, the JSON text encoding of the
  state file, ISO-8601 timestamp text) is treated as the external
  boundary: the registry answer is passed in as data, the state file is
  modelled as holding its JSON document, and timestamps are integers
  (seconds; one day = 86400) ordered as the timeline is.
* Python exceptions are modelled with `Except PyExn`; a try/except
  block is a `match` on the resulting value.
* The module `docker_hub_client.py` guards `from packaging import
  version` with try/except ImportError and keeps its own comparison
  algorithm as the fallback; the embedding models that fallback
  (`HAS_PACKAGING = False`) concretely, and models the packaging branch
  with an abstract parse function, since `packaging` is an external
  library.
-/

namespace DVF

/-- Python exception values that the embedded code can raise. -/
inductive PyExn where
  | attributeError
  | typeError
  | requestError
  | other
deriving DecidableEq, Repr

/-! ## Character/string helpers (Python `str` primitives) -/

/-- Python `s.split(sep)` for a one-character separator: splits on every
occurrence, keeping empty pieces (the split of the empty string is a
one-element list holding the empty string). -/
def splitOnChar (c : Char) : List Char → List (List Char)
  | [] => [[]]
  | x :: xs =>
    let r := splitOnChar c xs
    if x = c then [] :: r
    else
      match r with
      | h :: t => (x :: h) :: t
      | [] => [[x]]

/-- Python `s.split(sep, 1)`: the part before the first separator, and
`some rest` when the separator occurs (the rest may be empty). -/
def splitFirst (c : Char) : List Char → List Char × Option (List Char)
  | [] => ([], none)
  | x :: xs =>
    if x = c then ([], some xs)
    else
      let (m, s) := splitFirst c xs
      (x :: m, s)

/-- Value of a non-empty decimal digit string, as Python `int` reads it. -/
def natOfDigits (l : List Char) : Nat :=
  l.foldl (fun a c => 10 * a + (c.toNat - (Char.toNat '0'))) 0

/-- Python string comparison (the `str` order, by code point), as a
three-way result: -1, 0 or 1. -/
def strCmp : List Char → List Char → Int
  | [], [] => 0
  | [], _ :: _ => -1
  | _ :: _, [] => 1
  | a :: as, b :: bs =>
    if a < b then -1
    else if b < a then 1
    else strCmp as bs

/-- Non-empty and all ASCII digits (the regex shape `\d+`). -/
def allDigits (l : List Char) : Bool :=
  !l.isEmpty && l.all Char.isDigit

/-! ## DockerHubClient.is_valid_version (docker_hub_client.py:235-266) -/

/-- Meta tags rejected outright (docker_hub_client.py:246). -/
def metaTags : List String := ["latest", "stable", "master", "main", "sts", "beta"]

/-- Regex `^\d+\.\d+\.\d+$` (shape 1.2.3). -/
def patThreeNum (l : List Char) : Bool :=
  match splitOnChar '.' l with
  | [a, b, c] => allDigits a && allDigits b && allDigits c
  | _ => false

/-- Regex `^\d+\.\d+$` (shape 1.2). -/
def patTwoNum (l : List Char) : Bool :=
  match splitOnChar '.' l with
  | [a, b] => allDigits a && allDigits b
  | _ => false

/-- Regex `^v\d+\.\d+\.\d+$` (shape v1.2.3). -/
def patVThreeNum (l : List Char) : Bool :=
  match l with
  | 'v' :: rest => patThreeNum rest
  | _ => false

/-- Regex `^\d+\.\d+\.\d+-[a-zA-Z0-9]+$` (shape 1.2.3-alpha1). -/
def patThreeNumSuffix (l : List Char) : Bool :=
  match splitOnChar '-' l with
  | [m, suf] => patThreeNum m && !suf.isEmpty && suf.all Char.isAlphanum
  | _ => false

/-- Loop over `version_patterns` (docker_hub_client.py:254-263): true
when any of the four common version shapes matches. -/
def matchesVersionPattern (l : List Char) : Bool :=
  patThreeNum l || patTwoNum l || patVThreeNum l || patThreeNumSuffix l

/-- Embedding of `DockerHubClient.is_valid_version`
(docker_hub_client.py:235-266). Rejects the literal meta tags, then
tags with no digit; a match of one of the common version patterns
returns true early, and the final line returns true as well. -/
def is_valid_version (version_str : String) : Bool :=
  if metaTags.contains version_str then false
  else if !(version_str.data.any Char.isDigit) then false
  else if matchesVersionPattern version_str.data then true
  else true

/-! ## DockerHubClient._compare_versions, fallback branch
(docker_hub_client.py:268-350 with `HAS_PACKAGING = False`) -/

/-- One iteration of the component loop (docker_hub_client.py:312-339):
extract the digits scattered through each part; when both digit strings
are non-empty compare them as integers, otherwise compare the full part
texts lexicographically; 0 means the loop continues. The inner except
clause for ValueError/TypeError is unreachable for string parts, since
Python `int` of a non-empty digit string cannot fail. -/
def cmpPart (p1 p2 : List Char) : Int :=
  let n1 := p1.filter Char.isDigit
  let n2 := p2.filter Char.isDigit
  if !n1.isEmpty && !n2.isEmpty then
    let v1 := natOfDigits n1
    let v2 := natOfDigits n2
    if v1 > v2 then 1 else if v1 < v2 then -1 else 0
  else
    strCmp p1 p2

/-- Component loop over the common length followed by the length
tie-break (docker_hub_client.py:312-347): the first non-zero component
comparison decides; otherwise the version with more parts is greater. -/
def compareParts : List (List Char) → List (List Char) → Int
  | p1 :: r1, p2 :: r2 =>
    let c := cmpPart p1 p2
    if c = 0 then compareParts r1 r2 else c
  | l1, l2 =>
    if l1.length > l2.length then 1
    else if l1.length < l2.length then -1
    else 0

/-- Embedding of `DockerHubClient._compare_versions`
(docker_hub_client.py:268-350) on the module-internal comparison path
(`HAS_PACKAGING = False`, meaning the packaging import failed):
identical strings are equal without parsing; if either side fails
`is_valid_version` the result is 0 with a warning; otherwise the parts
split on the dot are compared. No exception can arise in this path, so
the outer except clause (line 348, returning 0) is not taken. -/
def compare_versions (version1 version2 : String) : Int :=
  if version1 = version2 then 0
  else if !(is_valid_version version1) || !(is_valid_version version2) then 0
  else compareParts (splitOnChar '.' version1.data) (splitOnChar '.' version2.data)

/-- Strip one leading v (docker_hub_client.py:292-293). -/
def stripV (s : String) : String :=
  match s.data with
  | 'v' :: rest => String.mk rest
  | _ => s

/-- Embedding of `DockerHubClient._compare_versions` on the
`HAS_PACKAGING` branch (docker_hub_client.py:288-304), with
`packaging.version.parse` and the order on its results abstracted:
`parse` may raise (modern packaging raises InvalidVersion on
non-PEP-440 tags such as 2.29.0-alpine), and any exception inside the
try block is caught at line 348 and turned into 0 with a warning. -/
def compare_versions_packaging {P : Type} (parse : String → Except PyExn P)
    (plt : P → P → Bool) (version1 version2 : String) : Int :=
  if version1 = version2 then 0
  else if !(is_valid_version version1) || !(is_valid_version version2) then 0
  else
    match (do
      let p1 ← parse (stripV version1)
      let p2 ← parse (stripV version2)
      if plt p2 p1 then pure 1
      else if plt p1 p2 then pure (-1)
      else pure 0 : Except PyExn Int) with
    | .ok r => r
    | .error _ => 0

/-- Comparison behaviour the spec claims for the failure path, written
from the spec (section 4.1 edge cases): plain lexicographic string
comparison of the two raw tag strings. Used only to compare that claim
with what the exception handler in the code actually returns. -/
def specLexCompare (version1 version2 : String) : Int :=
  strCmp version1.data version2.data

/-! ## DockerHubClient._parse_version_for_sorting
(docker_hub_client.py:196-233) -/

/-- Component of a Python sort key tuple: an int or a str. -/
inductive VComp where
  | num (n : Int)
  | str (s : List Char)
deriving DecidableEq, Repr

/-- Python `int(part)` succeeds on a non-empty all-digit part (the parts
here cannot contain a sign); on success the component is an integer,
otherwise (except ValueError) the part string itself
(docker_hub_client.py:220-224). -/
def componentOf (part : List Char) : VComp :=
  if allDigits part then .num (natOfDigits part) else .str part

/-- Embedding of `DockerHubClient._parse_version_for_sorting`
(docker_hub_client.py:196-233): strip one leading v, split off the
suffix at the first dash, turn the dot-separated parts of the main
segment into int-or-str components, and append a non-empty suffix as a
final string component. For string input the outer except clause (which
would return the sentinel tuple holding -1) cannot be reached. -/
def parse_version_for_sorting (version_str : String) : List VComp :=
  let cs := match version_str.data with
    | 'v' :: rest => rest
    | l => l
  let (main_version, suffixOpt) := splitFirst '-' cs
  let components := (splitOnChar '.' main_version).map componentOf
  match suffixOpt with
  | some suffix => if suffix.isEmpty then components else components ++ [.str suffix]
  | none => components

/-- Python equality on tuple components: int equals str is False, never
an error. -/
def vcompEq : VComp → VComp → Bool
  | .num a, .num b => a == b
  | .str a, .str b => a == b
  | _, _ => false

/-- Python less-than on tuple components: int against str raises
TypeError. -/
def vcompLt : VComp → VComp → Except PyExn Bool
  | .num a, .num b => .ok (a < b)
  | .str a, .str b => .ok (strCmp a b < 0)
  | _, _ => .error .typeError

/-- CPython tuple comparison (strictly less): skip equal prefixes using
tuple-component equality, then decide by less-than on the first unequal
pair; a strict prefix is smaller. -/
def keyLt : List VComp → List VComp → Except PyExn Bool
  | [], [] => .ok false
  | [], _ :: _ => .ok true
  | _ :: _, [] => .ok false
  | a :: as, b :: bs => if vcompEq a b then keyLt as bs else vcompLt a b

/-! ## DockerHubClient.get_latest_version (docker_hub_client.py:92-194) -/

/-- One entry of the images array of a tag record, with the fields the
code reads: architecture, os and digest, each possibly absent. -/
structure TagImage where
  architecture : Option String
  os : Option String
  digest : Option String
deriving DecidableEq, Repr

/-- One element of the results array of the registry answer: the name
(read with an empty-string default) and the optional images array. -/
structure TagInfo where
  name : Option String
  images : Option (List TagImage)
deriving DecidableEq, Repr

/-- Dict returned on success: tag and digest. -/
structure LatestInfo where
  tag : String
  digest : String
deriving DecidableEq, Repr

/-- Model of the call `self._is_windows_version(tag_name)`: the method
is referenced at docker_hub_client.py:132 and 139 but is defined
nowhere in the class or module (nor bound onto the class anywhere else
in the repository), so in Python the attribute lookup raises
AttributeError. -/
def is_windows_version (_tag_name : String) : Except PyExn Bool :=
  .error .attributeError

/-- Filter loop of docker_hub_client.py:129-133: keep the tags that are
neither Windows versions nor invalid. Calls `_is_windows_version` on
each element. -/
def filterTagsLoop : List TagInfo → List TagInfo → Except PyExn (List TagInfo)
  | [], acc => .ok acc
  | tag_info :: rest, acc => do
    let tag_name := tag_info.name.getD ""
    let isWin ← is_windows_version tag_name
    let acc2 := if !isWin && is_valid_version tag_name then acc ++ [tag_info] else acc
    filterTagsLoop rest acc2

/-- Fallback list comprehension of docker_hub_client.py:138-139: drop
only the Windows versions, keeping tags that fail `is_valid_version`.
Also calls `_is_windows_version`. -/
def windowsFilterLoop : List TagInfo → List TagInfo → Except PyExn (List TagInfo)
  | [], acc => .ok acc
  | tag_info :: rest, acc => do
    let isWin ← is_windows_version (tag_info.name.getD "")
    windowsFilterLoop rest (if !isWin then acc ++ [tag_info] else acc)

/-- Stable insertion for a descending sort: the new element goes in
front of the first element whose key is strictly smaller (a key
comparison may raise TypeError on mixed int/str components). -/
def insertDescByKey (key : String × TagInfo → List VComp) (x : String × TagInfo) :
    List (String × TagInfo) → Except PyExn (List (String × TagInfo))
  | [] => .ok [x]
  | y :: ys => do
    if (← keyLt (key y) (key x)) then pure (x :: y :: ys)
    else
      let r ← insertDescByKey key x ys
      pure (y :: r)

/-- Model of `sorted(version_tags, key=..., reverse=True)`
(docker_hub_client.py:151-153) as a stable insertion sort over the
parsed keys. Python uses Timsort; on key lists whose pairwise
comparisons are total (no TypeError) the two agree, and every theorem
below that touches sorting evaluates it on such a concrete list. -/
def sortVersionsDesc (key : String × TagInfo → List VComp) :
    List (String × TagInfo) → Except PyExn (List (String × TagInfo))
  | [] => .ok []
  | x :: xs => do
    let r ← sortVersionsDesc key xs
    insertDescByKey key x r

/-- Python truthiness of an optional string: None and the empty string
are falsy. -/
def truthyStr : Option String → Bool
  | none => false
  | some s => !s.isEmpty

/-- Lines 143-187 of docker_hub_client.py, from a non-empty filtered tag
list: collect the non-latest (name, record) pairs, sort them descending
by `_parse_version_for_sorting` of the name, pick the head (or the
first filtered record when no pair survived), then extract the digest
preferring the amd64/linux image, falling back to the first image and
then to the placeholder built from the tag name. -/
def resolveFromFiltered (filtered_tags : List TagInfo) (tag : String) :
    Except PyExn (Option LatestInfo) := do
  let version_tags :=
    (filtered_tags.map (fun ti => (ti.name.getD "", ti))).filter
      (fun x => x.1 ≠ "latest")
  let sorted_versions ← sortVersionsDesc (fun x => parse_version_for_sorting x.1) version_tags
  let latest_tag : TagInfo :=
    match sorted_versions with
    | [] => filtered_tags.headD ⟨none, none⟩
    | x :: _ => x.2
  let tag_name := latest_tag.name.getD tag
  let digest0 : Option String :=
    match latest_tag.images with
    | some imgs =>
      if !imgs.isEmpty then
        let fromAmd64 :=
          match imgs.find? (fun im => im.architecture == some "amd64" && im.os == some "linux") with
          | some im => im.digest
          | none => none
        if !truthyStr fromAmd64 then (imgs.headD ⟨none, none, none⟩).digest
        else fromAmd64
      else none
    | none => none
  let digest := if !truthyStr digest0 then "sha256:" ++ tag_name else digest0.getD ""
  pure (some ⟨tag_name, digest⟩)

/-- Body of the try block of `get_latest_version`
(docker_hub_client.py:108-187), given the decoded results array of the
tag-list response (a missing or empty results key is the empty list):
return None on no tags; filter out Windows and invalid tags; if that
empties the list retry keeping invalid tags, returning None if still
empty; then resolve the latest from the survivors. -/
def get_latest_version_body (results : List TagInfo) (tag : String) :
    Except PyExn (Option LatestInfo) := do
  if results.isEmpty then
    pure none
  else
    let filtered_tags ← filterTagsLoop results []
    if filtered_tags.isEmpty then
      let filtered_tags2 ← windowsFilterLoop results []
      if filtered_tags2.isEmpty then pure none
      else resolveFromFiltered filtered_tags2 tag
    else resolveFromFiltered filtered_tags tag

/-- Embedding of `DockerHubClient.get_latest_version`
(docker_hub_client.py:92-194). The HTTP boundary is abstracted:
`repo_exists` is what `repository_exists` answered, and `fetch` is the
decoded results array of the tag-list request, or the transport/JSON
error it raised. Both except clauses (lines 189-194) return None. -/
def get_latest_version (repo_exists : Bool) (fetch : Except PyExn (List TagInfo))
    (tag : String) : Option LatestInfo :=
  if !repo_exists then none
  else
    match (do get_latest_version_body (← fetch) tag : Except PyExn (Option LatestInfo)) with
    | .ok r => r
    | .error _ => none

/-! ## StateManager.should_notify (state_manager.py:94-154)

Timestamps are modelled as integers (seconds on the timeline; the
ISO-8601 text representation and `datetime.fromisoformat` are the
abstracted boundary); `timedelta(days=f)` is `f * 86400`. -/

/-- Seconds in a day, for timedelta arithmetic. -/
def secondsPerDay : Int := 86400

/-- Timestamp of 2000-01-01T00:00:00, the default used when a
last_notified field is absent, as seconds since the Unix epoch. -/
def y2000 : Int := 946684800

/-- Per-tag record of current_tags as `should_notify` reads it: the
notified flag and last_notified timestamp, each read with a default,
and the latest_tag written by `update_tag_state`. -/
structure TagState where
  notified : Option Bool
  last_notified : Option Int
  latest_tag : Option String
deriving DecidableEq, Repr

/-- Record of one repository in the images dict, with the fields
`should_notify` reads, each possibly absent. Dicts are association
lists in insertion order with unique keys. -/
structure RepoState where
  latest_digest : Option String
  latest_tag : Option String
  current_tags : Option (List (String × TagState))
  notified : Option Bool
  last_notified : Option Int
deriving DecidableEq, Repr

/-- Loaded state as `should_notify` reads it: the images dict and the
optional notification_frequency entry of the settings dict. -/
structure StateS where
  images : List (String × RepoState)
  notification_frequency : Option Int
deriving DecidableEq, Repr

/-- Dict lookup on an association list (first binding wins; a Python
dict has at most one). -/
def lookupA {α : Type} (l : List (String × α)) (k : String) : Option α :=
  (l.find? (fun p => p.1 = k)).map Prod.snd

/-- Python dict assignment: replace the binding in place (keeping
insertion order) or append a new one. -/
def setA {α : Type} : List (String × α) → String → α → List (String × α)
  | [], k, v => [(k, v)]
  | (k0, v0) :: rest, k, v =>
    if k0 = k then (k, v) :: rest else (k0, v0) :: setA rest k v

/-- Key split of state_manager.py:107-108: the pieces before and after
the first colon when one is present, else the key itself with the tag
defaulting to latest. Python splits on every colon, so the second piece
is the text between the first and second colons. -/
def keyParts (image_key : String) : String × String :=
  match splitOnChar ':' image_key.data with
  | p0 :: p1 :: _ => (String.mk p0, String.mk p1)
  | _ => (image_key, "latest")

/-- Embedding of `StateManager.should_notify` (state_manager.py:94-154).
`mgr_freq` is the NOTIFICATION_FREQUENCY environment value held by the
manager (default 7); `now` is the clock reading. The `latest_digest`
argument is received (line 94) and never read by the body. Decision
order as in the source: unknown repository → True; tag present and
notified → reminder-window test on the last_notified of the tag; tag
absent → True; repository notified → reminder-window test on the
last_notified of the repository; otherwise False. -/
def should_notify (mgr_freq : Int) (state : StateS) (image_key : String)
    (_latest_digest : String) (now : Int) : Bool :=
  let repository := (keyParts image_key).1
  let tag := (keyParts image_key).2
  match lookupA state.images repository with
  | none => true
  | some repo_state =>
    let current_tags := repo_state.current_tags.getD []
    let notification_frequency := state.notification_frequency.getD mgr_freq
    match lookupA current_tags tag with
    | some tstate =>
      if tstate.notified.getD false then
        let tag_last_notified := tstate.last_notified.getD y2000
        let next_reminder := tag_last_notified + notification_frequency * secondsPerDay
        decide (now ≥ next_reminder)
      else
        -- the tag is present, so line 136 does not return; control falls
        -- through to the repository-level check (lines 141-151) and the
        -- final return of False
        if repo_state.notified.getD false then
          let repo_last_notified := repo_state.last_notified.getD y2000
          decide (now ≥ repo_last_notified + notification_frequency * secondsPerDay)
        else false
    | none => true

/-- Embedding of `StateManager.update_tag_state`
(state_manager.py:181-207): create the repository entry and its
current_tags dict if needed, then set the record of the tag to notified
= True, last_notified = now, latest_tag as given. The latest_digest
argument of the Python method is likewise never read. A fresh
repository entry created here has no other fields. -/
def update_tag_state (state : StateS) (repository tag : String)
    (_latest_digest : String) (latest_tag : String) (now : Int) : StateS :=
  let rs : RepoState :=
    match lookupA state.images repository with
    | some rs => rs
    | none => ⟨none, none, none, none, none⟩
  let tags := rs.current_tags.getD []
  let newTag : TagState := ⟨some true, some now, some latest_tag⟩
  let rs2 := { rs with current_tags := some (setA tags tag newTag) }
  { state with images := setA state.images repository rs2 }

/-! ## StateManager.load_state / save_state (state_manager.py:31-92)

The state file is modelled as holding its JSON document (`Option Json`,
none when the file does not exist or cannot be parsed); the
`json.dump`/`json.load` text encoding is the abstracted boundary, an
inverse pair on JSON-representable values. -/

/-- JSON document, as Python dicts and lists hold it. -/
inductive Json where
  | null
  | bool (b : Bool)
  | num (n : Int)
  | str (s : String)
  | arr (elems : List Json)
  | obj (kvs : List (String × Json))

/-- Default state dict of state_manager.py:50-56 (and 63-69):
notification_frequency from the manager, last_check = now. -/
def default_state (freq : Int) (now : String) : Json :=
  .obj [("images", .obj []),
        ("settings", .obj [("notification_frequency", .num freq),
                           ("last_check", .str now)])]

/-- Embedding of `StateManager.load_state` (state_manager.py:31-69):
return the document of the file when the file exists and parses;
otherwise (absent file, or any exception — StateCorruption) the default
state. -/
def load_state (freq : Int) (now : String) (file : Option Json) : Json :=
  match file with
  | some st => st
  | none => default_state freq now

/-- Embedding of `StateManager.save_state` (state_manager.py:71-92),
with `now` the formatted clock reading. Line 80 mutates the passed
state, writing `now` into last_check under settings — this requires the
state to be a dict with a dict under settings; otherwise the raised
KeyError/TypeError is caught (line 91), nothing is written and the
state is unchanged. On success the updated document is written to the
file. Returns the pair (state after the call, file after the call). -/
def save_state (state : Json) (now : String) (file : Option Json) :
    Json × Option Json :=
  match state with
  | .obj kvs =>
    match lookupA kvs "settings" with
    | some (.obj skvs) =>
      let newState := Json.obj (setA kvs "settings" (.obj (setA skvs "last_check" (.str now))))
      (newState, some newState)
    | _ => (state, file)
  | _ => (state, file)

/-! ## Concrete inputs used by the theorems -/

/-- Parse function that raises on every input, exhibiting the behaviour
of modern packaging on tags outside PEP 440 (such as 2.29.0-alpine). -/
def failingParse : String → Except PyExn Unit := fun _ => .error .other

/-- Trivial order on the results of `failingParse` (never consulted,
since parsing raises first). -/
def noOrder : Unit → Unit → Bool := fun _ _ => false

/-- Registry record for the nginx tag 1.20 with an amd64/linux digest. -/
def nginxTag120 : TagInfo :=
  ⟨some "1.20", some [⟨some "amd64", some "linux", some "sha256:d120"⟩]⟩

/-- Registry record for the nginx tag 1.21 with an amd64/linux digest. -/
def nginxTag121 : TagInfo :=
  ⟨some "1.21", some [⟨some "amd64", some "linux", some "sha256:d121"⟩]⟩

/-- Registry record for the nginx tag 1.21-alpine with an amd64/linux
digest. -/
def nginxTag121alpine : TagInfo :=
  ⟨some "1.21-alpine", some [⟨some "amd64", some "linux", some "sha256:dalpine"⟩]⟩

/-- Registry record for the nginx tag latest with an amd64/linux digest. -/
def nginxTagLatest : TagInfo :=
  ⟨some "latest", some [⟨some "amd64", some "linux", some "sha256:dlatest"⟩]⟩

/-- Registry answer of the nginx scenario of the spec: tags 1.20, 1.21,
1.21-alpine and latest. -/
def nginxResults : List TagInfo :=
  [nginxTag120, nginxTag121, nginxTag121alpine, nginxTagLatest]

/-- Registry record for a Windows-only tag, which the platform exclusion
of the spec would remove. -/
def windowsOnlyTag : TagInfo :=
  ⟨some "1.21-windowsservercore", some [⟨some "amd64", some "linux", some "sha256:dw"⟩]⟩

/-! ## Theorems -/

/-- Helper: when every aligned pair of components compares to 0, the
component loop is decided by the two lengths alone. -/
theorem compareParts_prefix (l1 l2 : List (List Char))
    (h : ∀ p ∈ l1.zip l2, cmpPart p.1 p.2 = 0) :
    compareParts l1 l2 =
      if l1.length > l2.length then 1
      else if l1.length < l2.length then -1 else 0 := by
  induction l1 generalizing l2 with
  | nil => cases l2 <;> simp [compareParts]
  | cons a as ih =>
    cases l2 with
    | nil => simp [compareParts]
    | cons b bs =>
      have h0 : cmpPart a b = 0 := h (a, b) (by simp)
      have hrec := ih bs (fun p hp => h p (by simp [hp]))
      simp [compareParts, h0, hrec, Nat.succ_lt_succ_iff]

/-- Helper: lookup on a cons cell of an association list. -/
theorem lookupA_cons {α : Type} (k0 : String) (v0 : α) (tl : List (String × α)) (k' : String) :
    lookupA ((k0, v0) :: tl) k' = if k0 = k' then some v0 else lookupA tl k' := by
  by_cases h : k0 = k' <;> simp [lookupA, List.find?, h]

/-- Helper: dict assignment then lookup — the written key reads back the
written value and every other key is untouched. -/
theorem lookupA_setA {α : Type} (l : List (String × α)) (k : String) (v : α) (k' : String) :
    lookupA (setA l k v) k' = if k' = k then some v else lookupA l k' := by
  induction l with
  | nil =>
    show lookupA [(k, v)] k' = if k' = k then some v else lookupA [] k'
    rw [lookupA_cons]
    split_ifs <;> simp_all
  | cons hd tl ih =>
    obtain ⟨k0, v0⟩ := hd
    show lookupA (if k0 = k then (k, v) :: tl else (k0, v0) :: setA tl k v) k' = _
    by_cases h0 : k0 = k
    · subst h0
      rw [if_pos rfl, lookupA_cons, lookupA_cons]
      by_cases h : k0 = k'
      · rw [if_pos h, if_pos h.symm]
      · rw [if_neg h, if_neg (fun hh : k' = k0 => h hh.symm), if_neg h]
    · rw [if_neg h0, lookupA_cons, ih, lookupA_cons]
      by_cases hb : k0 = k'
      · rw [if_pos hb, if_neg (fun hh : k' = k => h0 (hb.trans hh)), if_pos hb]
      · by_cases ha : k' = k
        · rw [if_neg hb, if_pos ha, if_pos ha]
        · rw [if_neg hb, if_neg ha, if_neg ha, if_neg hb]

/-- Claim C1: for every repository-existence answer, tag-list answer and
tag argument, `get_latest_version` returns None — a missing repository
or an empty tag list returns None directly, and a non-empty tag list
makes the filtering loop call the undefined `_is_windows_version`,
whose AttributeError the catch-all handler turns into None; no call
ever produces a tag/digest result. -/
theorem get_latest_version_always_none (repo_exists : Bool)
    (fetch : Except PyExn (List TagInfo)) (tag : String) :
    get_latest_version repo_exists fetch tag = none := by
  cases repo_exists with
  | false => rfl
  | true =>
    cases fetch with
    | error e => rfl
    | ok results =>
      cases results with
      | nil => rfl
      | cons t ts => rfl

/-- Claim C2 (code bug): on the nginx scenario of the spec —
repository present, registry tags 1.20, 1.21, 1.21-alpine, latest —
`get_latest_version` returns None instead of the tag 1.21 the claim
states, so the per-image classification in main.py is never reached;
and even on the candidate set the spec expects after filtering, the
resolution step itself picks 1.21-alpine (the sort key appends the
suffix as an extra tuple component, ranking it above the bare 1.21),
not 1.21. -/
theorem nginx_resolution_returns_none :
    get_latest_version true (.ok nginxResults) "latest" = none ∧
    resolveFromFiltered [nginxTag120, nginxTag121, nginxTag121alpine] "latest" =
      .ok (some ⟨"1.21-alpine", "sha256:dalpine"⟩) := ⟨rfl, rfl⟩

/-- Claim C3, counterexample: comparing 2.29.0-alpine against 2.29.0
does not return -1, contrary to the claim that a suffixed tag ranks
strictly below the bare version. -/
theorem suffix_ranks_lower_cx :
    ¬ (compare_versions "2.29.0-alpine" "2.29.0" = -1) := by decide

/-- Claim C3, amended: the comparison treats 2.29.0-alpine and 2.29.0
as equal (returns 0) — the digit content of the component 0-alpine
equals that of 0 and the component counts match — and a suffix that
contains a digit can even rank the suffixed string strictly higher, as
1.2.3-rc1 against 1.2.3 shows. -/
theorem suffix_compare_amended :
    compare_versions "2.29.0-alpine" "2.29.0" = 0 ∧
    compare_versions "1.2.3-rc1" "1.2.3" = 1 := by decide

/-- Claim C4, counterexample: with a parse function that raises (as
modern packaging does on 2.29.0-alpine), the comparison of
2.29.0-alpine against 2.29.1 does not equal the lexicographic
comparison of the two raw strings claimed by the spec (it returns 0
while the lexicographic result is -1). -/
theorem parse_failure_not_lex_cx :
    ¬ (compare_versions_packaging failingParse noOrder "2.29.0-alpine" "2.29.1" =
        specLexCompare "2.29.0-alpine" "2.29.1") := by decide

/-- Claim C4, amended: for every pair of tag strings on which internal
version parsing raises, the comparison returns 0 (the two versions are
treated as equal); the event is logged at warning level and the
exception is never propagated — but it does not degrade to
lexicographic comparison of the raw strings. -/
theorem parse_failure_returns_zero {P : Type} (parse : String → Except PyExn P)
    (plt : P → P → Bool) (version1 version2 : String)
    (h : (∃ e, parse (stripV version1) = .error e) ∨
         (∃ e, parse (stripV version2) = .error e)) :
    compare_versions_packaging parse plt version1 version2 = 0 := by
  unfold compare_versions_packaging
  split
  · rfl
  split
  · rfl
  rcases h with ⟨e, he⟩ | ⟨e, he⟩
  · simp [he, bind, Except.bind]
  · cases hp : parse (stripV version1) with
    | error e2 => simp [hp, bind, Except.bind]
    | ok p1 => simp [hp, he, bind, Except.bind]

/-- Claim C4, witness: the amended theorem applied at the concrete
raising pair. -/
theorem parse_failure_returns_zero_witness :
    compare_versions_packaging failingParse noOrder "2.29.0-alpine" "2.29.1" = 0 :=
  parse_failure_returns_zero failingParse noOrder "2.29.0-alpine" "2.29.1"
    (Or.inl ⟨.other, rfl⟩)

/-- Claim C5: for a (repository, tag) pair whose tag-level state records
notified = true with last_notified = T and a configured notification
frequency of F days, `should_notify` returns true exactly when the
current time has reached T plus F days; the digest argument plays no
part. -/
theorem tag_reminder_window (mgr_freq F T now : Int) (state : StateS)
    (image_key latest_digest : String) (rs : RepoState) (ts : TagState)
    (hrepo : lookupA state.images (keyParts image_key).1 = some rs)
    (htag : lookupA (rs.current_tags.getD []) (keyParts image_key).2 = some ts)
    (hnot : ts.notified = some true)
    (hlast : ts.last_notified = some T)
    (hfreq : state.notification_frequency = some F) :
    should_notify mgr_freq state image_key latest_digest now = true ↔
      now ≥ T + F * secondsPerDay := by
  simp only [should_notify]
  rw [hrepo]
  simp [htag, hnot, hlast, hfreq]

/-- Claim C5, witness: after `update_tag_state` is applied at time T
with frequency 7 days, `should_notify` for the same repository, tag and
digest is false at T plus one day and true at T plus eight days. -/
theorem tag_reminder_window_witness :
    should_notify 7 (update_tag_state ⟨[], some 7⟩ "nginx" "1.20" "sha256:d121" "1.21" 1000000)
        "nginx:1.20" "sha256:d121" (1000000 + 1 * 86400) = false ∧
    should_notify 7 (update_tag_state ⟨[], some 7⟩ "nginx" "1.20" "sha256:d121" "1.21" 1000000)
        "nginx:1.20" "sha256:d121" (1000000 + 8 * 86400) = true := by
  have h1 := tag_reminder_window 7 7 1000000 (1000000 + 1 * 86400)
    (update_tag_state ⟨[], some 7⟩ "nginx" "1.20" "sha256:d121" "1.21" 1000000)
    "nginx:1.20" "sha256:d121"
    ⟨none, none, some [("1.20", ⟨some true, some 1000000, some "1.21"⟩)], none, none⟩
    ⟨some true, some 1000000, some "1.21"⟩ rfl rfl rfl rfl rfl
  have h2 := tag_reminder_window 7 7 1000000 (1000000 + 8 * 86400)
    (update_tag_state ⟨[], some 7⟩ "nginx" "1.20" "sha256:d121" "1.21" 1000000)
    "nginx:1.20" "sha256:d121"
    ⟨none, none, some [("1.20", ⟨some true, some 1000000, some "1.21"⟩)], none, none⟩
    ⟨some true, some 1000000, some "1.21"⟩ rfl rfl rfl rfl rfl
  constructor
  · cases hb : should_notify 7
        (update_tag_state ⟨[], some 7⟩ "nginx" "1.20" "sha256:d121" "1.21" 1000000)
        "nginx:1.20" "sha256:d121" (1000000 + 1 * 86400) with
    | false => rfl
    | true => exact absurd (h1.mp hb) (by decide)
  · exact h2.mpr (by decide)

/-- Claim C6, counterexample: on a non-empty tag list whose every tag
the platform (Windows) exclusion would remove, the resolution does not
fall back to the unfiltered list — it returns no result at all. -/
theorem windows_exclusion_no_fallback_cx :
    (get_latest_version true (.ok [windowsOnlyTag]) "latest").isSome = false := rfl

/-- Claim C6, amended: for every repository whose registry tag list is
non-empty, the resolution returns None unconditionally — the filtering
loop calls the undefined `_is_windows_version` and the AttributeError
is swallowed; moreover the coded fallback (lines 135-141) drops only
the validity filter while still applying the Windows exclusion, and
returns None when that too is empty, so no path falls back to the
unfiltered list. -/
theorem nonempty_tags_resolution_none (results : List TagInfo) (tag : String)
    (h : results ≠ []) :
    get_latest_version true (.ok results) tag = none := by
  cases results with
  | nil => exact absurd rfl h
  | cons t ts => rfl

/-- Claim C6, witness: the amended theorem applied to a concrete
non-empty, Windows-only tag list. -/
theorem nonempty_tags_resolution_none_witness :
    get_latest_version true (.ok [windowsOnlyTag, windowsOnlyTag]) "1.21" = none :=
  nonempty_tags_resolution_none [windowsOnlyTag, windowsOnlyTag] "1.21" (by simp)

/-- Claim C7: when two valid, distinct version strings agree (component
comparison 0) on their whole common prefix of dot components, the one
with strictly more components compares strictly greater — the shorter
side yields -1, the longer side 1. -/
theorem longer_version_ranks_greater (version1 version2 : String)
    (h1 : is_valid_version version1 = true)
    (h2 : is_valid_version version2 = true)
    (hne : version1 ≠ version2)
    (hpre : ∀ p ∈ (splitOnChar '.' version1.data).zip (splitOnChar '.' version2.data),
      cmpPart p.1 p.2 = 0) :
    ((splitOnChar '.' version1.data).length < (splitOnChar '.' version2.data).length →
      compare_versions version1 version2 = -1) ∧
    ((splitOnChar '.' version2.data).length < (splitOnChar '.' version1.data).length →
      compare_versions version1 version2 = 1) := by
  have hc := compareParts_prefix _ _ hpre
  refine ⟨fun hlt => ?_, fun hlt => ?_⟩ <;>
  · unfold compare_versions
    rw [if_neg hne, if_neg (by simp [h1, h2]), hc]
    split_ifs <;> omega

/-- Claim C7, witness: comparing 1.2 with 1.2.0 gives -1. -/
theorem longer_version_ranks_greater_witness :
    compare_versions "1.2" "1.2.0" = -1 :=
  (longer_version_ranks_greater "1.2" "1.2.0" (by decide) (by decide) (by decide)
    (by decide)).1 (by decide)

/-- Claim C8: `is_valid_version` returns false exactly for the literal
meta tags (latest, stable, master, main, sts, beta) and for tags with
no digit; every other tag is accepted, the strict version-shape
patterns being a fast-accept rather than a required gate — in
particular latest is rejected, 1.2.3 accepted, and nolatestdigits
rejected. -/
theorem is_valid_version_characterization :
    (∀ s : String, is_valid_version s = false ↔
      (metaTags.contains s = true ∨ s.data.any Char.isDigit = false)) ∧
    is_valid_version "latest" = false ∧
    is_valid_version "1.2.3" = true ∧
    is_valid_version "nolatestdigits" = false := by
  refine ⟨fun s => ?_, by decide, by decide, by decide⟩
  unfold is_valid_version
  by_cases hm : metaTags.contains s <;> by_cases hd : s.data.any Char.isDigit <;>
    simp [hm, hd]

/-- Claim C9: for a well-formed state document (an object holding an
images object and a settings object), saving and then loading yields
the state unchanged except that the last_check entry of settings is
refreshed to the save time: the loaded document is exactly the saved
state with last_check set, every other top-level entry is unchanged,
and every other settings entry is unchanged. -/
theorem save_load_roundtrip (kvs skvs imgs : List (String × Json))
    (now lnow : String) (file : Option Json) (freq : Int)
    (_himg : lookupA kvs "images" = some (.obj imgs))
    (hset : lookupA kvs "settings" = some (.obj skvs)) :
    load_state freq lnow (save_state (Json.obj kvs) now file).2 =
      Json.obj (setA kvs "settings" (.obj (setA skvs "last_check" (.str now)))) ∧
    (∀ k, k ≠ "settings" →
      lookupA (setA kvs "settings" (Json.obj (setA skvs "last_check" (Json.str now)))) k =
        lookupA kvs k) ∧
    (∀ k, k ≠ "last_check" →
      lookupA (setA skvs "last_check" (Json.str now)) k = lookupA skvs k) := by
  refine ⟨?_, fun k hk => ?_, fun k hk => ?_⟩
  · simp only [save_state]
    rw [hset]
    rfl
  · rw [lookupA_setA, if_neg hk]
  · rw [lookupA_setA, if_neg hk]

/-- Claim C9, witness: the round trip applied to a concrete well-formed
state document. -/
theorem save_load_roundtrip_witness :
    load_state 7 "t2" (save_state (Json.obj [("images", Json.obj []),
        ("settings", Json.obj [("notification_frequency", Json.num 7),
                               ("last_check", Json.str "t0")])]) "t1" none).2 =
      Json.obj (setA [("images", Json.obj []),
        ("settings", Json.obj [("notification_frequency", Json.num 7),
                               ("last_check", Json.str "t0")])] "settings"
        (.obj (setA [("notification_frequency", Json.num 7),
                     ("last_check", Json.str "t0")] "last_check" (.str "t1")))) ∧
    (∀ k, k ≠ "settings" →
      lookupA (setA [("images", Json.obj []),
        ("settings", Json.obj [("notification_frequency", Json.num 7),
                               ("last_check", Json.str "t0")])] "settings"
        (Json.obj (setA [("notification_frequency", Json.num 7),
                         ("last_check", Json.str "t0")] "last_check" (Json.str "t1")))) k =
        lookupA [("images", Json.obj []),
          ("settings", Json.obj [("notification_frequency", Json.num 7),
                                 ("last_check", Json.str "t0")])] k) ∧
    (∀ k, k ≠ "last_check" →
      lookupA (setA [("notification_frequency", Json.num 7),
                     ("last_check", Json.str "t0")] "last_check" (Json.str "t1")) k =
        lookupA [("notification_frequency", Json.num 7), ("last_check", Json.str "t0")] k) :=
  save_load_roundtrip [("images", Json.obj []),
      ("settings", Json.obj [("notification_frequency", Json.num 7),
                             ("last_check", Json.str "t0")])]
    [("notification_frequency", Json.num 7), ("last_check", Json.str "t0")]
    [] "t1" "t2" none 7 rfl rfl

/-- Claim C10: `should_notify` is independent of its latest_digest
argument — two calls differing only in the digest return the same
boolean, for every state, image key, frequency and time. -/
theorem should_notify_digest_independent (mgr_freq : Int) (state : StateS)
    (image_key d1 d2 : String) (now : Int) :
    should_notify mgr_freq state image_key d1 now =
      should_notify mgr_freq state image_key d2 now := rfl

end DVF
